import Mathlib

/-!
Shallow embedding of the mygrep regular-expression matcher
(mygrep.c, pattern.c, pattern.h).

Modelling conventions:
- A C string is modelled as a `List Nat` of byte values, the characters
  before the NUL terminator (no entry is 0).  Reading `str[pos]` at or past
  the end of the list yields the terminator byte 0 (`List.getD _ pos 0`).
- A position-set buffer (`bool *`) of length `len + 1` is a `List Bool`.
  The C match functions write into a caller-supplied `after` buffer whose
  prior contents are indeterminate; we pass those prior contents in as an
  explicit argument `a0`, and a function that leaves an entry unwritten
  returns that entry of `a0` unchanged.  Freshly allocated temporary
  buffers (the `midMarks` array of matchConcatenationPattern) likewise
  start with indeterminate contents, modelled by the parameter `g` of
  `patMatch`.
- Functions that call `exit` on failure (the parser, via `invalidPattern`)
  are modelled with `Option`: `none` is the `Invalid pattern` exit.
-/

namespace Regexer

/-- Tree of pattern objects, one constructor per `make*Pattern`
constructor of pattern.c.  Dot, StartAnchor and EndAnchor store the
character that triggered them in the source (a `SymbolPattern` struct)
but never read it, so it is omitted here. -/
inductive Pat : Type
  | symbol (sym : Nat)
  | dot
  | startAnchor
  | endAnchor
  | concat (p1 p2 : Pat)
  | alter (p1 p2 : Pat)
  | star (p : Pat)
  | plus (p : Pat)
  | qmark (p : Pat)
  deriving DecidableEq

/-- Embedding of `isMatch` (pattern.c lines 32-38): the loop
`for (int i = 0; str[i]; i++) if (marks[i]) return true;` runs over the
indices 0 .. strlen-1, i.e. over the characters before the terminator;
it never reads `marks[strlen(str)]`. -/
def isMatch (str : List Nat) (marks : List Bool) : Bool :=
  (List.range str.length).any (fun i => marks.getD i false)

/-- Embedding of `matchSymbolPattern` (pattern.c lines 79-93):
`after[0] = false;` then for `i` in 0 .. len-1,
`after[i+1] = before[i] && str[i] == this->sym`.  Every entry of the
len+1 buffer is written, so the result does not depend on `a0`. -/
def matchSymbolPattern (sym : Nat) (str : List Nat) (before a0 : List Bool) :
    List Bool :=
  false :: (List.range str.length).map
    (fun i => before.getD i false && (str.getD i 0 == sym))

/-- Embedding of `matchDotPattern` (pattern.c lines 112-124):
`after[0] = false;` then `after[i+1] = before[i] && str[i]`, where the
character value is used as a boolean (nonzero = true). -/
def matchDotPattern (str : List Nat) (before a0 : List Bool) : List Bool :=
  false :: (List.range str.length).map
    (fun i => before.getD i false && (str.getD i 0 != 0))

/-- Embedding of `matchStartAnchorPattern` (pattern.c lines 143-150): the
body is the single statement `after[0] = true;`.  Entries 1 .. len of the
buffer are never written and keep their prior contents `a0`. -/
def matchStartAnchorPattern (str : List Nat) (before a0 : List Bool) :
    List Bool :=
  a0.set 0 true

/-- Embedding of `matchEndAnchorPattern` (pattern.c lines 169-180):
`after[0] = false; after[len] = true;` and, only when
`before[len-1] == false`, the loop `for (i = 0; i < len-1; i++)
after[i] = false;`.  Entry len-1 is never written by the loop, and no
entry 1 .. len-1 is written at all when `before[len-1]` is true.  The
source reads `before[len-1]`, which for len = 0 is an out-of-bounds
read; the embedding is used only for len >= 1 (the driver always passes
len >= 1 because getline keeps the newline). -/
def matchEndAnchorPattern (str : List Nat) (before a0 : List Bool) :
    List Bool :=
  let len := str.length
  let a1 := (a0.set 0 false).set len true
  if before.getD (len - 1) false then a1
  else (List.range (len - 1)).foldl (fun a i => a.set i false) a1

/-- Embedding of `matchStarPattern` (pattern.c lines 337-348): apart from
the downcast of `pat`, the body is empty.  Nothing is written into
`after`, so the call returns the buffer with its indeterminate prior
contents unchanged; the subpattern and `before` are ignored. -/
def matchStarPattern (str : List Nat) (before a0 : List Bool) : List Bool :=
  a0

/-- Embedding of `matchPlusPattern` (pattern.c lines 373-383): the body is
likewise empty.  Note that `makePlusPattern` installs `matchStarPattern`,
not this function, as the match routine. -/
def matchPlusPattern (str : List Nat) (before a0 : List Bool) : List Bool :=
  a0

/-- Embedding of `matchQMarkPattern` (pattern.c lines 404-409): the body is
likewise empty.  Note that `makeQMarkPattern` installs `matchStarPattern`,
not this function, as the match routine. -/
def matchQMarkPattern (str : List Nat) (before a0 : List Bool) : List Bool :=
  a0

/-- Embedding of `matchConcatenationPattern` (pattern.c lines 235-248),
parameterised by the match routines of the two subpatterns:
a temporary buffer `bool midMarks[len + 1]` is allocated with
indeterminate contents `g`, p1 writes into it from `before`, and p2
writes into `after` from it. -/
def matchConcatenationPattern
    (m1 m2 : List Nat → List Bool → List Bool → List Bool)
    (g : List Bool) (str : List Nat) (before a0 : List Bool) : List Bool :=
  let midMarks := g
  let mid := m1 str before midMarks
  m2 str mid a0

/-- Embedding of `matchAlternationPattern` (pattern.c lines 269-284),
parameterised by the match routines of the two subpatterns:
p1 writes into `after` first; p2 is run, overwriting `after`, only when
`isMatch(str, after)` is false after p1. -/
def matchAlternationPattern
    (m1 m2 : List Nat → List Bool → List Bool → List Bool)
    (str : List Nat) (before a0 : List Bool) : List Bool :=
  let r1 := m1 str before a0
  if isMatch str r1 then r1 else m2 str before r1

/-- Dispatch of the match function pointers stored by the constructors of
pattern.c: `makeSymbolPattern` installs `matchSymbolPattern`,
`makeDotPattern` installs `matchDotPattern`, and so on.
`makeStarPattern` (line 356), `makePlusPattern` (line 391) and
`makeQMarkPattern` (line 417) all install the same routine,
`matchStarPattern`.  The parameter `g` supplies the indeterminate initial
contents of any temporary buffer a call allocates. -/
def patMatch (g : List Bool) : Pat → List Nat → List Bool → List Bool → List Bool
  | Pat.symbol sym => matchSymbolPattern sym
  | Pat.dot => matchDotPattern
  | Pat.startAnchor => matchStartAnchorPattern
  | Pat.endAnchor => matchEndAnchorPattern
  | Pat.concat p1 p2 =>
      matchConcatenationPattern (patMatch g p1) (patMatch g p2) g
  | Pat.alter p1 p2 =>
      matchAlternationPattern (patMatch g p1) (patMatch g p2)
  | Pat.star _ => matchStarPattern
  | Pat.plus _ => matchStarPattern
  | Pat.qmark _ => matchStarPattern

/-- Embedding of `ordinary` (mygrep.c lines 53-59): true unless the
character is one of `. ^ $ * ? + | ( ) [ {` or the NUL terminator
(strchr also finds the terminating 0 of the special-character string). -/
def ordinary (c : Nat) : Bool :=
  !(c == 46 || c == 94 || c == 36 || c == 42 || c == 63 || c == 43 ||
    c == 124 || c == 40 || c == 41 || c == 91 || c == 123 || c == 0)

/-- Embedding of `parseAtomicPattern` (mygrep.c lines 94-109): an ordinary
character, `.`, `^` or `$` yields the corresponding node and advances the
cursor; anything else (including `[`, `(` and end of string) reaches
`invalidPattern()`, modelled as `none`. -/
def parseAtomicPattern (str : List Nat) (pos : Nat) : Option (Pat × Nat) :=
  let c := str.getD pos 0
  if ordinary c then some (Pat.symbol c, pos + 1)
  else if c == 46 then some (Pat.dot, pos + 1)
  else if c == 94 then some (Pat.startAnchor, pos + 1)
  else if c == 36 then some (Pat.endAnchor, pos + 1)
  else none

/-- Embedding of `parseRepetition` (mygrep.c lines 128-132): the body only
calls `parseAtomicPattern` and returns its result; no repetition operator
is ever consumed and no Star, Plus or QMark node is ever built. -/
def parseRepetition (str : List Nat) (pos : Nat) : Option (Pat × Nat) :=
  parseAtomicPattern str pos

/-- Loop of `parseConcatenation` (mygrep.c lines 151-155):
`while (str[*pos] && str[*pos] != '|' && str[*pos] != ')')` parse another
repetition and fold it into a concat node.  The fuel argument only bounds
the recursion; every successful `parseRepetition` advances the cursor, so
fuel `str.length + 1` is never exhausted on the inputs considered. -/
def concatLoop (str : List Nat) : Nat → Pat → Nat → Option (Pat × Nat)
  | 0, _, _ => none
  | fuel + 1, p1, pos =>
      let c := str.getD pos 0
      if c != 0 && c != 124 && c != 41 then
        match parseRepetition str pos with
        | none => none
        | some (p2, pos2) => concatLoop str fuel (Pat.concat p1 p2) pos2
      else some (p1, pos)

/-- Embedding of `parseConcatenation` (mygrep.c lines 146-158). -/
def parseConcatenation (str : List Nat) (pos : Nat) : Option (Pat × Nat) :=
  match parseRepetition str pos with
  | none => none
  | some (p1, pos1) => concatLoop str (str.length + 1) p1 pos1

/-- Loop of `parseAlternation` (mygrep.c lines 175-179):
`while (str[*pos] && str[*pos] == '|')` consume the bar, parse another
concatenation and fold it into an alternation node. -/
def alterLoop (str : List Nat) : Nat → Pat → Nat → Option (Pat × Nat)
  | 0, _, _ => none
  | fuel + 1, p1, pos =>
      if str.getD pos 0 == 124 then
        match parseConcatenation str (pos + 1) with
        | none => none
        | some (p2, pos2) => alterLoop str fuel (Pat.alter p1 p2) pos2
      else some (p1, pos)

/-- Embedding of `parseAlternation` (mygrep.c lines 172-181). -/
def parseAlternation (str : List Nat) (pos : Nat) : Option (Pat × Nat) :=
  match parseConcatenation str pos with
  | none => none
  | some (p1, pos1) => alterLoop str (str.length + 1) p1 pos1

/-- Embedding of the parse step of `main` (mygrep.c lines 220-221):
`int pos = 0; pat = parseAlternation(argv[1], &pos);`.  The final cursor
is returned alongside the tree because `main` leaves any remaining input
unexamined. -/
def parsePattern (str : List Nat) : Option (Pat × Nat) :=
  parseAlternation str 0

/-- Embedding of the `before` construction in `main` (mygrep.c lines
228-233): with `len = strlen(str)` (the getline buffer, including any
trailing newline), a buffer of len+1 bools is allocated with
indeterminate contents `g` and the loop `for (i = 0; i < len; i++)
before[i] = true;` sets only the first len entries. -/
def mainBefore (len : Nat) (g : List Bool) : List Bool :=
  (List.range len).foldl (fun a i => a.set i true) g

/-- Helper: reading inside the range of `(List.range n).map f` evaluates
`f`. -/
theorem getD_range_map {α : Type} (f : Nat → α) {n i : Nat} (d : α)
    (hi : i < n) : ((List.range n).map f).getD i d = f i := by
  rw [List.getD_eq_getElem?_getD, List.getElem?_map, List.getElem?_range hi]
  rfl

/-- C1: `matchStarPattern` has an empty body, so `Star(p).match(before)`
returns the `after` buffer with its indeterminate prior contents
unchanged instead of the closure of `before` under `p`.  Here
Star(Symbol a) on the line "a" with `before = [true, true]` and prior
buffer contents `[false, false]` yields `[false, false]`, which is not
even a superset of `before`. -/
theorem starMatch_returns_buffer_unchanged :
    patMatch [] (Pat.star (Pat.symbol 97)) [97] [true, true] [false, false]
      = [false, false] := by decide

/-- C2: `matchAlternationPattern` runs the second branch only when the
first branch produced no mark, and then lets it overwrite rather than
union.  For Alternation(Symbol a, Symbol b) on the line "ab" with
`before` all true, the code returns the first branch result
`[false, true, false]`, while the second branch alone reaches gap 2, so
the elementwise union the claim requires would have `true` at index 2. -/
theorem alternation_shortcircuit_drops_branch :
    patMatch [] (Pat.alter (Pat.symbol 97) (Pat.symbol 98)) [97, 98]
        [true, true, true] [false, false, false] = [false, true, false]
    ∧ (matchSymbolPattern 98 [97, 98] [true, true, true]
        [false, false, false]).getD 2 false = true := by decide

/-- C3: `matchStartAnchorPattern` unconditionally writes
`after[0] = true`.  On the line "a" with `before = [false, false]` (and
prior buffer contents all false) the result has `true` at gap 0 even
though `before[0]` is false, contradicting `result[0] = before[0]`. -/
theorem startAnchor_forces_true_at_gap0 :
    matchStartAnchorPattern [97] [false, false] [false, false]
      = [true, false] := by decide

/-- C4: `matchEndAnchorPattern` unconditionally writes
`after[len] = true`.  On the line "a" (n = 1) with
`before = [true, false]` the result has `true` at gap 1 even though
`before[1]` is false, contradicting `result[n] = before[n]`. -/
theorem endAnchor_forces_true_at_final_gap :
    matchEndAnchorPattern [97] [true, false] [false, false]
      = [false, true] := by decide

/-- C5: `parseRepetition` never consumes a repetition operator, so on the
pattern "a*" the star is handed to `parseAtomicPattern` by the
concatenation loop, which rejects it: parsing exits with
`Invalid pattern` (`none`) instead of returning Star(Symbol a). -/
theorem parse_repetition_operator_rejected :
    parsePattern [97, 42] = none := by decide

/-- C6 counterexample: `isMatch` iterates only while `str[i]` is nonzero,
so it never examines `marks[n]`.  On a string of length 1 with
`marks = [false, true]`, an entry of `marks` (the final one) is true yet
`isMatch` reports false, refuting the claimed if-and-only-if. -/
theorem isMatch_ignores_final_entry :
    isMatch [97] [false, true] = false
    ∧ ([false, true] : List Bool).getD 1 false = true := by decide

/-- C6 amended: the line is reported as matching iff at least one of the
first n entries (indices 0 .. n-1) of the position set is true; the
final entry at index n is never examined. -/
theorem isMatch_iff_first_n_entries (str : List Nat) (marks : List Bool) :
    isMatch str marks = true
      ↔ ∃ i, i < str.length ∧ marks.getD i false = true := by
  simp [isMatch, List.any_eq_true, List.mem_range]

/-- Witness for the amended C6 statement at a concrete input. -/
theorem isMatch_iff_first_n_entries_witness :
    isMatch [97] [true, false] = true
      ↔ ∃ i, i < ([97] : List Nat).length
          ∧ ([true, false] : List Bool).getD i false = true :=
  isMatch_iff_first_n_entries [97] [true, false]

/-- C7: the driver fills only the first len entries of the len+1 position
buffer with true and leaves the last entry with its indeterminate
malloc contents (here modelled as false): for a line of length 1 the
buffer passed to match is `[true, <indeterminate>]`, not
`[true, true]`.  (Moreover len is strlen of the getline buffer, which
includes a trailing newline when present.) -/
theorem mainBefore_leaves_final_entry_unset :
    mainBefore 1 [false, false] = [true, false] := by decide

/-- C8: on the non-conforming pattern "a)" the parser succeeds, returning
Symbol(a) with the cursor at 1 and the unmatched `)` left unconsumed;
`main` never checks for leftover input, so no `Invalid pattern` failure
occurs and every line is matched against the partial tree. -/
theorem parse_accepts_trailing_input :
    parsePattern [97, 41] = some (Pat.symbol 97, 1) := by decide

/-- C9: `matchSymbolPattern` returns a set of length n+1 with
`result[0] = false` and `result[i+1] = before[i] && (line[i] == c)` for
every i below n, exactly as the claim states. -/
theorem matchSymbolPattern_spec (sym : Nat) (str : List Nat)
    (before a0 : List Bool) (h : before.length = str.length + 1) :
    (matchSymbolPattern sym str before a0).length = str.length + 1
    ∧ (matchSymbolPattern sym str before a0).getD 0 false = false
    ∧ ∀ i, i < str.length →
        (matchSymbolPattern sym str before a0).getD (i + 1) false
          = (before.getD i false && (str.getD i 0 == sym)) := by
  refine ⟨by simp [matchSymbolPattern], rfl, ?_⟩
  intro i hi
  simp only [matchSymbolPattern, List.getD_cons_succ]
  exact getD_range_map _ false hi

/-- Witness for C9 at a concrete input: the symbol a against the line "a"
with `before = [true, true]`. -/
theorem matchSymbolPattern_spec_witness :
    ([true, true] : List Bool).length = ([97] : List Nat).length + 1
    ∧ ((matchSymbolPattern 97 [97] [true, true] []).length
          = ([97] : List Nat).length + 1
       ∧ (matchSymbolPattern 97 [97] [true, true] []).getD 0 false = false
       ∧ ∀ i, i < ([97] : List Nat).length →
           (matchSymbolPattern 97 [97] [true, true] []).getD (i + 1) false
             = (([true, true] : List Bool).getD i false
                 && (([97] : List Nat).getD i 0 == 97))) :=
  ⟨by decide, matchSymbolPattern_spec 97 [97] [true, true] [] (by decide)⟩

/-- C10: `makeStarPattern`, `makePlusPattern` and `makeQMarkPattern` all
install the same match routine, `matchStarPattern`, so Star(p), Plus(p)
and QMark(p) have extensionally equal match behaviour on every line,
every position set and every buffer state. -/
theorem star_plus_qmark_same_match (g : List Bool) (p : Pat)
    (str : List Nat) (before a0 : List Bool) :
    patMatch g (Pat.star p) str before a0
        = patMatch g (Pat.plus p) str before a0
    ∧ patMatch g (Pat.plus p) str before a0
        = patMatch g (Pat.qmark p) str before a0 :=
  ⟨rfl, rfl⟩

end Regexer
